import Mathlib

/-!
Shallow embedding of `Examples/Stereo/generate_timestamps.py` (ORB_SLAM3).

The script reads a directory listing of PNG image files and either
synthesizes evenly spaced timestamps from a frame rate (`generate_from_fps`)
or imports timestamps from a CSV table (`generate_from_csv`), then writes a
`timestamps.txt` file.

Modelling conventions:
* Python floats are modelled as rationals (`ℚ`); the arithmetic the script
  performs (one division, one multiplication per record, `%.6f` rendering)
  is modelled exactly over `ℚ`.
* A directory is modelled as the list of its entry basenames
  (`dirFiles : List String`); `glob` plus `os.path.basename` plus `sort`
  becomes filtering for `*.png` entries and sorting basenames (sorting the
  full paths is the same as sorting the basenames because all matches share
  the directory prefix).
* A CSV file is modelled as its parsed rows, `List (List String)`
  (`csv.reader` yields one `List String` per line; a blank line yields `[]`).
* `sys.exit(1)` paths become `Except.error` values of type `FatalError`.
* File output is modelled by `runFpsFile` / `runCsvFile`, functions from the
  prior contents of the output path to its final contents.
-/

namespace GenerateTimestamps

/-- Byte-wise (code-point-wise) lexicographic `≤` on character lists; this is
how Python compares strings (`images.sort()` uses it). -/
def charListLe : List Char → List Char → Bool
  | [], _ => true
  | _ :: _, [] => false
  | a :: as, b :: bs =>
    if a.toNat < b.toNat then true
    else if b.toNat < a.toNat then false
    else charListLe as bs

/-- Python string `<=` on `String`, as a `Bool`. -/
def strLe (a b : String) : Bool := charListLe a.data b.data

/-- Python string `<=` as a proposition, the order `images.sort()` sorts by. -/
def strLeP (a b : String) : Prop := strLe a b = true

instance : DecidableRel strLeP := fun a b => Bool.decEq (strLe a b) true

/-- `s.startswith('#')` from Python: the first character is `'#'`. -/
def startsWithHash (s : String) : Bool :=
  match s.data with
  | '#' :: _ => true
  | _ => false

/-- Python list indexing `row[i]` with negative-index support; `none` models
an `IndexError`. -/
def pyGet (row : List String) (i : Int) : Option String :=
  if 0 ≤ i then row.get? i.toNat
  else if -(row.length : Int) ≤ i then row.get? ((row.length : Int) + i).toNat
  else none

/-- Value of a digit string, most significant first. -/
def digitsVal (cs : List Char) : ℕ :=
  cs.foldl (fun acc c => acc * 10 + (c.toNat - 48)) 0

/-- Python `str.strip()` of whitespace, on the character list. -/
def pyStrip (cs : List Char) : List Char :=
  ((cs.dropWhile Char.isWhitespace).reverse.dropWhile Char.isWhitespace).reverse

/-- Exponent part of a float literal (after the `e`/`E`): optional sign then
at least one digit. -/
def parseExpPart : List Char → Option ℤ
  | [] => none
  | '+' :: ds =>
    if ds ≠ [] ∧ ds.all Char.isDigit then some ((digitsVal ds : ℤ)) else none
  | '-' :: ds =>
    if ds ≠ [] ∧ ds.all Char.isDigit then some (-(digitsVal ds : ℤ)) else none
  | ds =>
    if ds.all Char.isDigit then some ((digitsVal ds : ℤ)) else none

/-- Python `float(s)` on plain decimal literals: optional surrounding
whitespace, optional sign, digits with an optional single decimal point
(at least one digit overall), optional `e`/`E` exponent.  `none` models a
`ValueError`.  (The exotic `float()` inputs — `inf`, `nan`, hex, digit
underscores — are outside the model; they do not occur in the spec's
scenarios.) -/
def parseFloat (s : String) : Option ℚ :=
  let cs := pyStrip s.data
  let signAndRest : ℚ × List Char :=
    match cs with
    | '-' :: rest => ((-1 : ℚ), rest)
    | '+' :: rest => ((1 : ℚ), rest)
    | _ => ((1 : ℚ), cs)
  let sign := signAndRest.1
  let cs1 := signAndRest.2
  let ip := cs1.takeWhile Char.isDigit
  let cs2 := cs1.dropWhile Char.isDigit
  let fracAndRest : List Char × List Char :=
    match cs2 with
    | '.' :: rest => (rest.takeWhile Char.isDigit, rest.dropWhile Char.isDigit)
    | _ => ([], cs2)
  let fp := fracAndRest.1
  let cs3 := fracAndRest.2
  if ip = [] ∧ fp = [] then none
  else
    let mant : ℚ := sign * ((digitsVal ip : ℚ) + (digitsVal fp : ℚ) / (10 : ℚ) ^ fp.length)
    match cs3 with
    | [] => some mant
    | 'e' :: rest => (parseExpPart rest).map (fun e => mant * (10 : ℚ) ^ e)
    | 'E' :: rest => (parseExpPart rest).map (fun e => mant * (10 : ℚ) ^ e)
    | _ => none

/-- Does a directory entry match `glob("*.png")`?  The entry must end in
`.png` and, as with `glob`, must not be a hidden (leading-dot) file. -/
def isPngEntry (name : String) : Bool :=
  match name.data with
  | [] => false
  | c :: _ => decide (c ≠ '.') && decide (name.data.reverse.take 4 = ['g', 'n', 'p', '.'])

/-- `get_sorted_images(directory)`: the `*.png` basenames of the directory,
sorted ascending.  Python's `list.sort` is modelled by insertion sort, which
produces the same list for this total order. -/
def get_sorted_images (dirFiles : List String) : List String :=
  List.insertionSort strLeP (dirFiles.filter isPngEntry)

/-- The fatal (`sys.exit(1)`) conditions of the script. -/
inductive FatalError where
  | emptyDirectory : FatalError
  | noValidRows : FatalError
  | countMismatch (nTimestamps nImages : ℕ) : FatalError
deriving DecidableEq

/-- Floor of a rational as an integer (`Int.fdiv` rounds toward `-∞`). -/
def intFloor (q : ℚ) : ℤ := Int.fdiv q.num (q.den : ℤ)

/-- Round a rational to the nearest integer, ties to even — the rounding of
Python's fixed-point float formatting. -/
def roundHalfEven (q : ℚ) : ℤ :=
  let f := intFloor q
  let r := q - (f : ℚ)
  if r < 1 / 2 then f
  else if (1 / 2 : ℚ) < r then f + 1
  else if f % 2 = 0 then f else f + 1

/-- Left-pad the decimal rendering of `k` with zeros to 6 characters. -/
def pad6 (k : ℕ) : String :=
  let s := toString k
  String.mk (List.replicate (6 - s.length) '0' ++ s.data)

/-- Python's `f"{t:.6f}"`: the value rounded to 6 decimal digits, rendered
with exactly 6 fractional digits. -/
def formatFixed6 (q : ℚ) : String :=
  let n := roundHalfEven (q * 1000000)
  let a := n.natAbs
  (if n < 0 then "-" else "") ++ toString (a / 1000000) ++ "." ++ pad6 (a % 1000000)

/-- One output record line, `f"{timestamp:.6f} {filename}"`. -/
def recordLine (r : ℚ × String) : String := formatFixed6 r.1 ++ " " ++ r.2

/-- `generate_from_fps(fps, left_dir, output_file)`, up to I/O: the records
it computes, or the fatal condition.  `dt = 1.0 / fps` is exact over `ℚ`
(the `fps = 0` division, a `ZeroDivisionError` in Python, is unreachable
from `main`, see the claims about `main`). -/
def generate_from_fps (fps : ℚ) (dirFiles : List String) :
    Except FatalError (List (ℚ × String)) :=
  let images := get_sorted_images dirFiles
  if images = [] then Except.error FatalError.emptyDirectory
  else
    let dt : ℚ := 1 / fps
    Except.ok (images.enum.map (fun p => ((p.1 : ℚ) * dt, p.2)))

/-- The CSV reading loop of `generate_from_csv`: returns the `timestamps`
and `filenames_from_csv` lists.  A row is processed only if it is non-empty
and its first field does not start with `#`; `float(row[time_column])`
failing (ValueError or IndexError) skips the row; when it succeeds the
timestamp is appended, and only then is `row[filename_column]` read, whose
IndexError skips the rest of the row body but keeps the timestamp.
(The Python loop appends at the tail; this structural recursion builds the
same two lists in the same order.) -/
def parseTable (time_column : Int) (filename_column : Option Int) :
    List (List String) → List ℚ × List String
  | [] => ([], [])
  | row :: rest =>
    let tail := parseTable time_column filename_column rest
    match row with
    | [] => tail
    | f0 :: _ =>
      if startsWithHash f0 then tail
      else
        match (pyGet row time_column).bind parseFloat with
        | none => tail
        | some t =>
          match filename_column with
          | none => (t :: tail.1, tail.2)
          | some c =>
            match pyGet row c with
            | none => (t :: tail.1, tail.2)
            | some fn => (t :: tail.1, fn :: tail.2)

/-- `generate_from_csv(csv_file, left_dir, output_file, time_column,
filename_column)`, up to I/O: the records it computes, or the fatal
condition. -/
def generate_from_csv (rows : List (List String)) (dirFiles : List String)
    (time_column : Int) (filename_column : Option Int) :
    Except FatalError (List (ℚ × String)) :=
  let images := get_sorted_images dirFiles
  if images = [] then Except.error FatalError.emptyDirectory
  else
    let timestamps := (parseTable time_column filename_column rows).1
    let filenames_from_csv := (parseTable time_column filename_column rows).2
    if timestamps = [] then Except.error FatalError.noValidRows
    else if filenames_from_csv ≠ [] ∧ filenames_from_csv.length = timestamps.length then
      Except.ok (timestamps.zip filenames_from_csv)
    else if timestamps.length = (get_sorted_images dirFiles).length then
      Except.ok (timestamps.zip (get_sorted_images dirFiles))
    else
      Except.error (FatalError.countMismatch timestamps.length
        (get_sorted_images dirFiles).length)

/-- The lines `generate_from_fps` writes: two `#` header lines, then one
record line per image. -/
def fpsFileLines (fps : ℚ) (recs : List (ℚ × String)) : List String :=
  ("# Generated timestamps for " ++ toString recs.length ++ " frames at "
      ++ toString fps ++ " fps")
    :: "# timestamp(s) filename"
    :: recs.map recordLine

/-- The lines `generate_from_csv` writes: two `#` header lines, then one
record line per pair. -/
def csvFileLines (csv_file : String) (recs : List (ℚ × String)) : List String :=
  ("# Generated from " ++ csv_file)
    :: "# timestamp(s) filename"
    :: recs.map recordLine

/-- Effect of a `generate_from_fps` run on the output path: `prior` is the
file's prior contents (if any); a fatal exit leaves it untouched, success
replaces it.  The `open(output_file, 'w')` happens only after the fatal
checks, so no partial write can occur. -/
def runFpsFile (fps : ℚ) (dirFiles : List String) (prior : Option (List String)) :
    Option (List String) :=
  match generate_from_fps fps dirFiles with
  | Except.error _ => prior
  | Except.ok recs => some (fpsFileLines fps recs)

/-- Effect of a `generate_from_csv` run on the output path, as in
`runFpsFile`. -/
def runCsvFile (csv_file : String) (rows : List (List String))
    (dirFiles : List String) (time_column : Int) (filename_column : Option Int)
    (prior : Option (List String)) : Option (List String) :=
  match generate_from_csv rows dirFiles time_column filename_column with
  | Except.error _ => prior
  | Except.ok recs => some (csvFileLines csv_file recs)

/-- Python truthiness of `args.fps : Optional[float]`: `None` and `0.0` are
falsy.  (`nan`, which is truthy, has no rational counterpart and is outside
the model.) -/
def pyTruthyFloat (x : Option ℚ) : Bool :=
  match x with
  | none => false
  | some q => decide (q ≠ 0)

/-- Python truthiness of `args.csv_file : Optional[str]`: `None` and the
empty string are falsy. -/
def pyTruthyStr (x : Option String) : Bool :=
  match x with
  | none => false
  | some s => decide (s ≠ "")

/-- Where `main` dispatches after argument validation. -/
inductive MainOutcome where
  | usageError (msg : String) : MainOutcome
  | dirNotFound (dir : String) : MainOutcome
  | runFps (fps : ℚ) (left_dir output : String) : MainOutcome
  | runCsv (csv_file left_dir output : String)
      (time_column : Int) (filename_column : Option Int) : MainOutcome
deriving DecidableEq

/-- The argument validation and dispatch of `main` (after `argparse`):
`dirExists` models `os.path.isdir(args.left_dir)`. -/
def main (fps : Option ℚ) (csv_file : Option String) (time_column : Int)
    (filename_column : Option Int) (left_dir : String) (dirExists : Bool)
    (output : String) : MainOutcome :=
  if !pyTruthyFloat fps && !pyTruthyStr csv_file then
    MainOutcome.usageError "Either --fps or --csv-file must be specified"
  else if pyTruthyFloat fps && pyTruthyStr csv_file then
    MainOutcome.usageError "Cannot specify both --fps and --csv-file"
  else if !dirExists then
    MainOutcome.dirNotFound left_dir
  else if pyTruthyFloat fps then
    MainOutcome.runFps (match fps with | some q => q | none => 0) left_dir output
  else
    MainOutcome.runCsv (match csv_file with | some s => s | none => "")
      left_dir output time_column filename_column

/-- A table row that carries both a parseable timestamp and a filename: the
row survives the comment filter, its timestamp column parses as a float, and
its filename column index is in range. -/
def rowFull (time_column filename_column : Int) (row : List String) :
    Option (ℚ × String) :=
  match row with
  | [] => none
  | f0 :: _ =>
    if startsWithHash f0 then none
    else
      match (pyGet row time_column).bind parseFloat, pyGet row filename_column with
      | some t, some fn => some (t, fn)
      | some _, none => none
      | none, _ => none

/-! ### Properties of the lexicographic order used by the sort -/

theorem charListLe_total : ∀ as bs : List Char, charListLe as bs = true ∨ charListLe bs as = true
  | [], _ => Or.inl rfl
  | _ :: _, [] => Or.inr rfl
  | a :: as, b :: bs => by
    simp only [charListLe]
    rcases Nat.lt_trichotomy a.toNat b.toNat with h | h | h
    · left
      rw [if_pos h]
    · rw [if_neg (by omega), if_neg (by omega), if_neg (by omega), if_neg (by omega)]
      exact charListLe_total as bs
    · right
      rw [if_pos h]

theorem charListLe_trans : ∀ as bs cs : List Char,
    charListLe as bs = true → charListLe bs cs = true → charListLe as cs = true
  | [], _, _, _, _ => rfl
  | _ :: _, [], _, h1, _ => by simp [charListLe] at h1
  | _ :: _, _ :: _, [], _, h2 => by simp [charListLe] at h2
  | a :: as, b :: bs, c :: cs, h1, h2 => by
    simp only [charListLe] at h1 h2 ⊢
    by_cases hab : a.toNat < b.toNat
    · rw [if_pos hab] at h1
      by_cases hbc : b.toNat < c.toNat
      · rw [if_pos (by omega : a.toNat < c.toNat)]
      · rw [if_neg hbc] at h2
        by_cases hcb : c.toNat < b.toNat
        · rw [if_pos hcb] at h2
          exact absurd h2 (by simp)
        · rw [if_pos (by omega : a.toNat < c.toNat)]
    · rw [if_neg hab] at h1
      by_cases hba : b.toNat < a.toNat
      · rw [if_pos hba] at h1
        exact absurd h1 (by simp)
      · rw [if_neg hba] at h1
        by_cases hbc : b.toNat < c.toNat
        · rw [if_pos (by omega : a.toNat < c.toNat)]
        · rw [if_neg hbc] at h2
          by_cases hcb : c.toNat < b.toNat
          · rw [if_pos hcb] at h2
            exact absurd h2 (by simp)
          · rw [if_neg (show ¬ a.toNat < c.toNat by omega), if_neg (show ¬ c.toNat < a.toNat by omega)]
            exact charListLe_trans as bs cs h1 (by rwa [if_neg hcb] at h2)

instance : IsTotal String strLeP :=
  ⟨fun a b => charListLe_total a.data b.data⟩

instance : IsTrans String strLeP :=
  ⟨fun a b c => charListLe_trans a.data b.data c.data⟩

/-! ### Helper lemmas shared by the claim theorems -/

/-- Any dispatch of `main` to the fixed-rate mode carries a nonzero fps:
`pyTruthyFloat` guards that branch, and it is `false` at `none` and at `0`. -/
theorem main_runFps_ne_zero (fps : Option ℚ) (csv : Option String) (tc : Int)
    (fc : Option Int) (ld : String) (de : Bool) (out : String) (q : ℚ)
    (l o : String) (h : main fps csv tc fc ld de out = MainOutcome.runFps q l o) :
    q ≠ 0 := by
  unfold main at h
  cases fps with
  | none =>
    split_ifs at h
    all_goals simp_all [pyTruthyFloat]
  | some q0 =>
    split_ifs at h
    all_goals simp_all [pyTruthyFloat]

/-- When every row of the table is non-comment and carries both a parseable
timestamp and an in-range filename entry, the reading loop returns exactly
the tables' timestamp column and filename column, in row order. -/
theorem parseTable_of_full (tc fcc : Int) : ∀ rows : List (List String),
    (∀ row ∈ rows, ∃ p, rowFull tc fcc row = some p) →
    parseTable tc (some fcc) rows =
      ((rows.filterMap (rowFull tc fcc)).map Prod.fst,
       (rows.filterMap (rowFull tc fcc)).map Prod.snd)
  | [] => fun _ => rfl
  | row :: rest => fun h => by
    obtain ⟨p, hp⟩ := h row (List.mem_cons_self row rest)
    have ih := parseTable_of_full tc fcc rest (fun r hr => h r (List.mem_cons_of_mem _ hr))
    cases row with
    | nil => exact absurd hp (by simp [rowFull])
    | cons f0 r =>
      rcases h0 : startsWithHash f0 with _ | _
      · rcases hm : (pyGet (f0 :: r) tc).bind parseFloat with _ | t
        · rw [rowFull, if_neg (by simp [h0]), hm] at hp
          exact absurd hp (by simp)
        · rcases hf : pyGet (f0 :: r) fcc with _ | fn
          · rw [rowFull, if_neg (by simp [h0]), hm, hf] at hp
            exact absurd hp (by simp)
          · rw [rowFull, if_neg (by simp [h0]), hm, hf] at hp
            have hpe : p = (t, fn) := by
              cases hp
              rfl
            subst hpe
            simp only [parseTable]
            rw [h0, hm, hf]
            have hcons : rowFull tc fcc (f0 :: r) = some (t, fn) := by
              rw [rowFull, if_neg (by simp [h0]), hm, hf]
            simp [List.filterMap_cons, hcons, ih]
      · rw [rowFull, if_pos (by simp [h0])] at hp
        exact absurd hp (by simp)

/-! ### Claim theorems -/

/-- Claim C1: fixed-rate mode on a directory with at least one PNG file and
`fps > 0` produces exactly one record per image; the record at position
`idx` pairs the timestamp `idx * (1 / fps)` with the `idx`-th filename in
ascending lexicographic order of the PNG basenames; the sequence starts at
exactly `0`; and the file's record lines serialize each timestamp through
the 6-decimal-digit rounding of `formatFixed6`. -/
theorem fixed_rate_mode_correct (fps : ℚ) (hfps : 0 < fps) (dirFiles : List String)
    (hne : get_sorted_images dirFiles ≠ []) :
    ∃ recs : List (ℚ × String),
      generate_from_fps fps dirFiles = Except.ok recs ∧
      recs.length = (get_sorted_images dirFiles).length ∧
      (∀ (idx : ℕ) (name : String),
        (get_sorted_images dirFiles)[idx]? = some name →
          recs[idx]? = some ((idx : ℚ) * (1 / fps), name)) ∧
      (∃ name0 : String, recs[0]? = some ((0 : ℚ), name0)) ∧
      List.Sorted strLeP (get_sorted_images dirFiles) ∧
      (get_sorted_images dirFiles).Perm (dirFiles.filter isPngEntry) ∧
      (fpsFileLines fps recs).drop 2 = recs.map recordLine := by
  refine ⟨(get_sorted_images dirFiles).enum.map (fun p => ((p.1 : ℚ) * (1 / fps), p.2)),
    ?_, ?_, ?_, ?_, ?_, ?_, ?_⟩
  · unfold generate_from_fps
    rw [if_neg hne]
  · simp
  · intro idx name h
    simp [List.getElem?_enum, h]
  · rcases hd : get_sorted_images dirFiles with _ | ⟨a, t⟩
    · exact absurd hd hne
    · refine ⟨a, ?_⟩
      simp [hd, List.getElem?_enum]
  · exact List.sorted_insertionSort strLeP _
  · exact List.perm_insertionSort strLeP _
  · rfl

/-- Witness for C1 at `fps = 2` and a two-image directory. -/
theorem fixed_rate_mode_correct_witness :
    ∃ recs : List (ℚ × String),
      generate_from_fps 2 ["b.png", "a.png"] = Except.ok recs ∧
      recs.length = (get_sorted_images ["b.png", "a.png"]).length ∧
      (∀ (idx : ℕ) (name : String),
        (get_sorted_images ["b.png", "a.png"])[idx]? = some name →
          recs[idx]? = some ((idx : ℚ) * (1 / 2), name)) ∧
      (∃ name0 : String, recs[0]? = some ((0 : ℚ), name0)) ∧
      List.Sorted strLeP (get_sorted_images ["b.png", "a.png"]) ∧
      (get_sorted_images ["b.png", "a.png"]).Perm (["b.png", "a.png"].filter isPngEntry) ∧
      (fpsFileLines 2 recs).drop 2 = recs.map recordLine :=
  fixed_rate_mode_correct 2 (by norm_num) ["b.png", "a.png"] (by decide)

/-- Claim C2, amended: `main` rejects a missing fps, and it treats an fps of
`0.0` as falsy, so `generate_from_fps` is never invoked with `fps = 0` or a
missing fps; a negative fps, however, passes the validation and
`generate_from_fps` is invoked with it. -/
theorem fps_validation_amended :
    (∀ (fps : Option ℚ) (csv : Option String) (tc : Int) (fc : Option Int)
        (ld : String) (de : Bool) (out : String) (q : ℚ) (l o : String),
        main fps csv tc fc ld de out = MainOutcome.runFps q l o → q ≠ 0) ∧
    main (some (-1)) none 0 none "dir" true "out.txt" =
      MainOutcome.runFps (-1) "dir" "out.txt" :=
  ⟨main_runFps_ne_zero, by with_unfolding_all rfl⟩

/-- Witness for the amended C2. -/
theorem fps_validation_amended_witness : (2 : ℚ) ≠ 0 :=
  fps_validation_amended.1 (some 2) none 0 none "d" true "o" 2 "d" "o"
    (by with_unfolding_all rfl)

/-- Counterexample to C2 as stated: with `--fps -1` and no csv file, `main`'s
validation passes and it dispatches to `generate_from_fps` with the
non-positive fps `-1`. -/
theorem fps_validation_counterexample :
    main (some (-1)) none 0 none "dir" true "out.txt" =
      MainOutcome.runFps (-1) "dir" "out.txt" ∧ ((-1 : ℚ) ≤ 0) :=
  ⟨by with_unfolding_all rfl, by norm_num⟩

/-- Claim C3: output-pairing priority of table-import mode.  Given at least
one image and at least one parsed timestamp: if the extracted-filename count
equals the timestamp count, the timestamps are paired with the table's
filenames in row order; otherwise, if the timestamp count equals the image
count, they are paired positionally with the sorted image list; otherwise
the run fails with `countMismatch` carrying both counts, and the output file
is untouched. -/
theorem csv_output_priority (rows : List (List String)) (dirFiles : List String)
    (tc : Int) (fc : Option Int)
    (himg : get_sorted_images dirFiles ≠ [])
    (hts : (parseTable tc fc rows).1 ≠ []) :
    ((parseTable tc fc rows).2.length = (parseTable tc fc rows).1.length →
        generate_from_csv rows dirFiles tc fc =
          Except.ok ((parseTable tc fc rows).1.zip (parseTable tc fc rows).2)) ∧
    ((parseTable tc fc rows).2.length ≠ (parseTable tc fc rows).1.length →
      (parseTable tc fc rows).1.length = (get_sorted_images dirFiles).length →
        generate_from_csv rows dirFiles tc fc =
          Except.ok ((parseTable tc fc rows).1.zip (get_sorted_images dirFiles))) ∧
    ((parseTable tc fc rows).2.length ≠ (parseTable tc fc rows).1.length →
      (parseTable tc fc rows).1.length ≠ (get_sorted_images dirFiles).length →
        generate_from_csv rows dirFiles tc fc =
          Except.error (FatalError.countMismatch (parseTable tc fc rows).1.length
            (get_sorted_images dirFiles).length)) ∧
    (∀ (csv : String) (prior : Option (List String)),
      (parseTable tc fc rows).2.length ≠ (parseTable tc fc rows).1.length →
      (parseTable tc fc rows).1.length ≠ (get_sorted_images dirFiles).length →
        runCsvFile csv rows dirFiles tc fc prior = prior) := by
  refine ⟨?_, ?_, ?_, ?_⟩
  · intro hlen
    have hfne : (parseTable tc fc rows).2 ≠ [] := by
      intro hnil
      rw [hnil] at hlen
      exact hts (List.eq_nil_of_length_eq_zero hlen.symm)
    unfold generate_from_csv
    rw [if_neg himg, if_neg hts, if_pos ⟨hfne, hlen⟩]
  · intro hlen hlen2
    unfold generate_from_csv
    rw [if_neg himg, if_neg hts, if_neg (fun hand => hlen hand.2), if_pos hlen2]
  · intro hlen hlen2
    unfold generate_from_csv
    rw [if_neg himg, if_neg hts, if_neg (fun hand => hlen hand.2), if_neg hlen2]
  · intro csv prior hlen hlen2
    have herr : generate_from_csv rows dirFiles tc fc =
        Except.error (FatalError.countMismatch (parseTable tc fc rows).1.length
          (get_sorted_images dirFiles).length) := by
      unfold generate_from_csv
      rw [if_neg himg, if_neg hts, if_neg (fun hand => hlen hand.2), if_neg hlen2]
    unfold runCsvFile
    rw [herr]

/-- Witness for C3 at the spec's mismatch scenario: 3 valid timestamp rows,
5 images, no filename column. -/
theorem csv_output_priority_witness :
    generate_from_csv [["1.0"], ["2.0"], ["3.0"]]
        ["1.png", "2.png", "3.png", "4.png", "5.png"] 0 none =
      Except.error (FatalError.countMismatch 3 5) := by
  have h := (csv_output_priority [["1.0"], ["2.0"], ["3.0"]]
      ["1.png", "2.png", "3.png", "4.png", "5.png"] 0 none (by decide)
      (by with_unfolding_all decide)).2.2.1
      (by with_unfolding_all decide) (by with_unfolding_all decide)
  rw [h]
  with_unfolding_all rfl

/-- Claim C4: empty rows and rows whose first field begins with `#` are
ignored; a row whose timestamp column fails to parse as a float (including a
missing column) is silently skipped; and when no row yields a timestamp the
run fails with `noValidRows`, leaving the output file untouched. -/
theorem table_row_skipping (tc : Int) (fc : Option Int) :
    (∀ rest : List (List String), parseTable tc fc ([] :: rest) = parseTable tc fc rest) ∧
    (∀ (f0 : String) (row : List String) (rest : List (List String)),
        startsWithHash f0 = true →
        parseTable tc fc ((f0 :: row) :: rest) = parseTable tc fc rest) ∧
    (∀ (f0 : String) (row : List String) (rest : List (List String)),
        startsWithHash f0 = false →
        (pyGet (f0 :: row) tc).bind parseFloat = none →
        parseTable tc fc ((f0 :: row) :: rest) = parseTable tc fc rest) ∧
    (∀ (rows : List (List String)) (dirFiles : List String),
        get_sorted_images dirFiles ≠ [] →
        (parseTable tc fc rows).1 = [] →
        generate_from_csv rows dirFiles tc fc = Except.error FatalError.noValidRows) ∧
    (∀ (csv : String) (rows : List (List String)) (dirFiles : List String)
        (prior : Option (List String)),
        get_sorted_images dirFiles ≠ [] →
        (parseTable tc fc rows).1 = [] →
        runCsvFile csv rows dirFiles tc fc prior = prior) := by
  refine ⟨?_, ?_, ?_, ?_, ?_⟩
  · intro rest
    rfl
  · intro f0 row rest h
    simp only [parseTable]
    rw [h]
    simp
  · intro f0 row rest h hparse
    simp only [parseTable]
    rw [h, hparse]
    simp
  · intro rows dirFiles himg hts
    unfold generate_from_csv
    rw [if_neg himg, if_pos hts]
  · intro csv rows dirFiles prior himg hts
    have herr : generate_from_csv rows dirFiles tc fc = Except.error FatalError.noValidRows := by
      unfold generate_from_csv
      rw [if_neg himg, if_pos hts]
    unfold runCsvFile
    rw [herr]

/-- Witness for C4: a comment row, an empty row and a non-numeric row leave
no valid timestamps, so the run fails with `noValidRows`. -/
theorem table_row_skipping_witness :
    generate_from_csv [["# note"], [], ["abc", "1.0"]] ["a.png"] 0 none =
      Except.error FatalError.noValidRows :=
  (table_row_skipping 0 none).2.2.2.1 [["# note"], [], ["abc", "1.0"]] ["a.png"]
    (by decide) (by with_unfolding_all decide)

/-- Claim C5: the concrete table `# header / 1.0,imgA.png / bad,row /
2.0,imgB.png` with filename column 1 and any non-empty image directory
yields exactly the two records `1.000000 imgA.png` and `2.000000 imgB.png`,
in that order. -/
theorem comment_and_malformed_rows_example (dirFiles : List String)
    (himg : get_sorted_images dirFiles ≠ []) :
    generate_from_csv [["# header"], ["1.0", "imgA.png"], ["bad", "row"], ["2.0", "imgB.png"]]
        dirFiles 0 (some 1) =
      Except.ok [((1 : ℚ), "imgA.png"), ((2 : ℚ), "imgB.png")] ∧
    [((1 : ℚ), "imgA.png"), ((2 : ℚ), "imgB.png")].map recordLine =
      ["1.000000 imgA.png", "2.000000 imgB.png"] := by
  constructor
  · unfold generate_from_csv
    rw [if_neg himg]
    with_unfolding_all rfl
  · with_unfolding_all rfl

/-- Witness for C5 with a one-image directory. -/
theorem comment_and_malformed_rows_example_witness :
    generate_from_csv [["# header"], ["1.0", "imgA.png"], ["bad", "row"], ["2.0", "imgB.png"]]
        ["x.png"] 0 (some 1) =
      Except.ok [((1 : ℚ), "imgA.png"), ((2 : ℚ), "imgB.png")] ∧
    [((1 : ℚ), "imgA.png"), ((2 : ℚ), "imgB.png")].map recordLine =
      ["1.000000 imgA.png", "2.000000 imgB.png"] :=
  comment_and_malformed_rows_example ["x.png"] (by decide)

/-- Counterexample to C6 as stated: with an empty directory listing, a table
with a perfectly valid (timestamp, filename) row is not reproduced — the run
fails with `emptyDirectory` instead — so the round-trip does not hold
"regardless of the directory listing's contents". -/
theorem csv_roundtrip_counterexample :
    generate_from_csv [["1.0", "a.png"]] [] 0 (some 1) =
      Except.error FatalError.emptyDirectory ∧
    generate_from_csv [["1.0", "a.png"]] [] 0 (some 1) ≠
      Except.ok [((1 : ℚ), "a.png")] := by
  constructor
  · with_unfolding_all rfl
  · intro h
    rw [show generate_from_csv [["1.0", "a.png"]] [] 0 (some 1) =
        Except.error FatalError.emptyDirectory from by with_unfolding_all rfl] at h
    exact Except.noConfusion h

/-- Claim C6, amended: for every non-empty table each of whose rows is
non-comment and carries a parseable timestamp in the timestamp column and a
filename at the supplied filename column, and every directory listing with
at least one PNG file, table-import mode outputs exactly the table's own
(timestamp, filename) pairs in table row order, regardless of which PNG
files the directory contains. -/
theorem csv_roundtrip_amended (rows : List (List String)) (dirFiles : List String)
    (tc fcc : Int)
    (himg : get_sorted_images dirFiles ≠ [])
    (hrows : rows ≠ [])
    (hfull : ∀ row ∈ rows, ∃ p, rowFull tc fcc row = some p) :
    generate_from_csv rows dirFiles tc (some fcc) =
      Except.ok (rows.filterMap (rowFull tc fcc)) := by
  have hpt := parseTable_of_full tc fcc rows hfull
  have hne : rows.filterMap (rowFull tc fcc) ≠ [] := by
    cases rows with
    | nil => exact absurd rfl hrows
    | cons r rest =>
      obtain ⟨p, hp⟩ := hfull r (List.mem_cons_self r rest)
      simp [List.filterMap_cons, hp]
  unfold generate_from_csv
  rw [if_neg himg, hpt]
  rw [if_neg (by simpa using hne), if_pos ⟨by simpa using hne, by simp⟩]
  rw [← List.unzip_eq_map, List.zip_unzip]

/-- Witness for the amended C6: a two-row table round-trips over an
unrelated one-image directory. -/
theorem csv_roundtrip_amended_witness :
    generate_from_csv [["1.0", "a.png"], ["2.0", "b.png"]] ["z.png"] 0 (some 1) =
      Except.ok ([["1.0", "a.png"], ["2.0", "b.png"]].filterMap (rowFull 0 1)) :=
  csv_roundtrip_amended [["1.0", "a.png"], ["2.0", "b.png"]] ["z.png"] 0 1
    (by decide) (by decide)
    (by
      intro row hr
      simp only [List.mem_cons, List.not_mem_nil, or_false] at hr
      rcases hr with rfl | rfl
      · exact ⟨((1 : ℚ), "a.png"), by with_unfolding_all rfl⟩
      · exact ⟨((2 : ℚ), "b.png"), by with_unfolding_all rfl⟩)

/-- Claim C7: a directory with no PNG file makes both modes fail with
`emptyDirectory`, whatever the fps or table contents, and leaves the output
file untouched. -/
theorem empty_directory_fatal (dirFiles : List String)
    (h : get_sorted_images dirFiles = []) :
    (∀ fps : ℚ, generate_from_fps fps dirFiles = Except.error FatalError.emptyDirectory) ∧
    (∀ (rows : List (List String)) (tc : Int) (fc : Option Int),
        generate_from_csv rows dirFiles tc fc = Except.error FatalError.emptyDirectory) ∧
    (∀ (fps : ℚ) (prior : Option (List String)), runFpsFile fps dirFiles prior = prior) ∧
    (∀ (csv : String) (rows : List (List String)) (tc : Int) (fc : Option Int)
        (prior : Option (List String)), runCsvFile csv rows dirFiles tc fc prior = prior) := by
  have hf : ∀ fps : ℚ, generate_from_fps fps dirFiles = Except.error FatalError.emptyDirectory := by
    intro fps
    unfold generate_from_fps
    rw [if_pos h]
  have hc : ∀ (rows : List (List String)) (tc : Int) (fc : Option Int),
      generate_from_csv rows dirFiles tc fc = Except.error FatalError.emptyDirectory := by
    intro rows tc fc
    unfold generate_from_csv
    rw [if_pos h]
  refine ⟨hf, hc, ?_, ?_⟩
  · intro fps prior
    unfold runFpsFile
    rw [hf fps]
  · intro csv rows tc fc prior
    unfold runCsvFile
    rw [hc rows tc fc]

/-- Witness for C7: a directory whose only entry is not a PNG. -/
theorem empty_directory_fatal_witness :
    (∀ fps : ℚ, generate_from_fps fps ["notes.txt"] = Except.error FatalError.emptyDirectory) ∧
    (∀ (rows : List (List String)) (tc : Int) (fc : Option Int),
        generate_from_csv rows ["notes.txt"] tc fc = Except.error FatalError.emptyDirectory) ∧
    (∀ (fps : ℚ) (prior : Option (List String)), runFpsFile fps ["notes.txt"] prior = prior) ∧
    (∀ (csv : String) (rows : List (List String)) (tc : Int) (fc : Option Int)
        (prior : Option (List String)), runCsvFile csv rows ["notes.txt"] tc fc prior = prior) :=
  empty_directory_fatal ["notes.txt"] (by decide)

/-- Claim C8: any run ending in a fatal condition writes nothing — the
output path keeps its prior contents, since all records are computed and
all validation completes before any write begins. -/
theorem fatal_condition_no_write :
    (∀ (fps : ℚ) (dirFiles : List String) (e : FatalError) (prior : Option (List String)),
        generate_from_fps fps dirFiles = Except.error e → runFpsFile fps dirFiles prior = prior) ∧
    (∀ (csv : String) (rows : List (List String)) (dirFiles : List String) (tc : Int)
        (fc : Option Int) (e : FatalError) (prior : Option (List String)),
        generate_from_csv rows dirFiles tc fc = Except.error e →
          runCsvFile csv rows dirFiles tc fc prior = prior) := by
  constructor
  · intro fps d e prior h
    unfold runFpsFile
    rw [h]
  · intro csv rows d tc fc e prior h
    unfold runCsvFile
    rw [h]

/-- Witness for C8: a fatal fixed-rate run over an empty directory leaves
pre-existing output contents untouched. -/
theorem fatal_condition_no_write_witness :
    runFpsFile 30 [] (some ["old contents"]) = some ["old contents"] :=
  fatal_condition_no_write.1 30 [] FatalError.emptyDirectory (some ["old contents"])
    (by with_unfolding_all rfl)

/-- Claim C9: a row whose timestamp parses but whose filename column is out
of range keeps its timestamp while extracting no filename; consequently the
filename count can drop below the timestamp count and the output silently
falls through to positional pairing with the directory listing (here
ignoring the table's own `tabA.png`) or to `countMismatch`. -/
theorem filename_index_error_keeps_timestamp :
    (∀ (tc fcc : Int) (f0 : String) (row : List String) (rest : List (List String)) (t : ℚ),
        startsWithHash f0 = false →
        (pyGet (f0 :: row) tc).bind parseFloat = some t →
        pyGet (f0 :: row) fcc = none →
        parseTable tc (some fcc) ((f0 :: row) :: rest) =
          (t :: (parseTable tc (some fcc) rest).1, (parseTable tc (some fcc) rest).2)) ∧
    generate_from_csv [["1.0", "tabA.png"], ["2.0"]] ["x.png", "y.png"] 0 (some 1) =
      Except.ok [((1 : ℚ), "x.png"), ((2 : ℚ), "y.png")] ∧
    generate_from_csv [["1.0", "tabA.png"], ["2.0"]] ["x.png"] 0 (some 1) =
      Except.error (FatalError.countMismatch 2 1) := by
  refine ⟨?_, by with_unfolding_all rfl, by with_unfolding_all rfl⟩
  intro tc fcc f0 row rest t h hp hf
  simp only [parseTable]
  rw [h, hp, hf]
  simp

/-- Witness for C9: the single row `3.5` with filename column 1 keeps the
timestamp `3.5` and extracts no filename. -/
theorem filename_index_error_keeps_timestamp_witness :
    parseTable 0 (some 1) [["3.5"]] =
      ((7 : ℚ) / 2 :: (parseTable 0 (some 1) []).1, (parseTable 0 (some 1) []).2) :=
  filename_index_error_keeps_timestamp.1 0 1 "3.5" [] [] ((7 : ℚ) / 2)
    (by decide) (by with_unfolding_all decide) (by decide)

/-- Claim C10: the division `1.0 / fps` is never evaluated with `fps = 0` on
any path from `main`: a dispatch to the fixed-rate mode always carries a
nonzero fps, and an fps of `0.0` with no csv file is rejected as "no mode
specified". -/
theorem fps_zero_division_unreachable :
    (∀ (fps : Option ℚ) (csv : Option String) (tc : Int) (fc : Option Int)
        (ld : String) (de : Bool) (out : String) (q : ℚ) (l o : String),
        main fps csv tc fc ld de out = MainOutcome.runFps q l o → q ≠ 0) ∧
    (∀ (tc : Int) (fc : Option Int) (ld : String) (de : Bool) (out : String),
        main (some 0) none tc fc ld de out =
          MainOutcome.usageError "Either --fps or --csv-file must be specified") :=
  ⟨main_runFps_ne_zero, fun tc fc ld de out => by with_unfolding_all rfl⟩

/-- Witness for C10. -/
theorem fps_zero_division_unreachable_witness : (3 : ℚ) ≠ 0 :=
  fps_zero_division_unreachable.1 (some 3) none 0 none "d" true "o" 3 "d" "o"
    (by with_unfolding_all rfl)

end GenerateTimestamps
